import Mathlib

/-!
Shallow embedding of the maimai selfie plugin core (storage, rate limiter,
prompt planner, image client, selfie orchestrator) and proofs of the
specification claims.  Python strings are modelled as Lean `String`
(lists of unicode chars), bytes as `List Nat` (each value < 256), floats
(unix timestamps) as `Rat`, dicts as ordered association lists, and every
fallible external call (HTTP, filesystem-free here) as an `Except`-valued
input supplied by the environment.
-/

/-- Association-list lookup (Python `dict.get`): first matching key wins. -/
def lookupA {α : Type} : List (String × α) → String → Option α
  | [], _ => none
  | (k₂, v) :: rest, k => if k₂ = k then some v else lookupA rest k

/-- Association-list assignment (Python `d[k] = v`): replaces the entry in
place when the key is present, appends otherwise (dict insertion order). -/
def setA {α : Type} : List (String × α) → String → α → List (String × α)
  | [], k, v => [(k, v)]
  | (k₂, v₂) :: rest, k, v => if k₂ = k then (k, v) :: rest else (k₂, v₂) :: setA rest k v

/-- Association-list removal (Python `dict.pop(k, None)`): drops the entry
for the key.  A real dict has unique keys, so dropping every occurrence is
the same operation. -/
def removeA {α : Type} (l : List (String × α)) (k : String) : List (String × α) :=
  l.filter (fun p => decide (¬ p.1 = k))

/-- Test `leadsWith pat l`: true when `pat` is an initial run of `l`. -/
def leadsWith {α : Type} [DecidableEq α] : List α → List α → Bool
  | [], _ => true
  | _ :: _, [] => false
  | p :: ps, c :: cs => decide (p = c) && leadsWith ps cs

/-- Test `containsSeq pat l`: `pat` occurs contiguously inside `l`
(Python `pat in s`). -/
def containsSeq {α : Type} [DecidableEq α] (pat : List α) : List α → Bool
  | [] => leadsWith pat []
  | c :: cs => leadsWith pat (c :: cs) || containsSeq pat cs

/-- Python `pat in s` on strings. -/
def pyContains (s pat : String) : Bool := containsSeq pat.data s.data

/-- Python `s.startswith(pat)`. -/
def pyStartsWith (s pat : String) : Bool := leadsWith pat.data s.data

/-- The characters of `l` after the first `','`; `none` when `l` has no
comma.  Models Python `s.split(",", 1)[1]` together with the `"," in s`
test. -/
def afterFirstComma : List Char → Option (List Char)
  | [] => none
  | c :: cs => if c = ',' then some cs else afterFirstComma cs

/-- The characters of `l` before the first newline: Python
`s.split("\n")[0]`. -/
def takeUntilNL : List Char → List Char
  | [] => []
  | c :: cs => if c = '\n' then [] else c :: takeUntilNL cs

/-- Python `s.strip()` on a character list. -/
def stripChars (cs : List Char) : List Char :=
  ((cs.dropWhile Char.isWhitespace).reverse.dropWhile Char.isWhitespace).reverse

/-- Python `s.strip()`. -/
def pyStrip (s : String) : String := String.mk (stripChars s.data)

/-- Python `s.lower()` (ASCII letters; other characters unchanged). -/
def pyLower (s : String) : String := String.mk (s.data.map Char.toLower)

/-- Python `int(x or d)` for an int-typed config value: `0` is falsy and is
replaced by the default. -/
def pyIntOr (v d : Int) : Int := if v = 0 then d else v

/-! ## base64 (models Python `base64.b64encode` / `base64.b64decode`
with `validate=False`: characters outside the alphabet are discarded before
decoding, and a malformed group or bad padding fails). -/

/-- The standard base64 alphabet. -/
def b64Alphabet : List Char :=
  "ABCDEFGHIJKLMNOPQRSTUVWXYZabcdefghijklmnopqrstuvwxyz0123456789+/".data

/-- Index of a char in a list, starting at `i`. -/
def charIdxAux : List Char → Char → Nat → Option Nat
  | [], _, _ => none
  | x :: xs, c, i => if x = c then some i else charIdxAux xs c (i + 1)

/-- The 6-bit value of a base64 alphabet character. -/
def charVal (c : Char) : Option Nat := charIdxAux b64Alphabet c 0

/-- Whether a character belongs to the base64 alphabet. -/
def isB64Char (c : Char) : Bool := (charVal c).isSome

/-- The alphabet character for a 6-bit value. -/
def sextetChar (n : Nat) : Char := b64Alphabet.getD n 'A'

/-- base64-encode a byte list into characters (3 bytes per 4 chars, `=`
padding). -/
def b64encodeChars : List Nat → List Char
  | [] => []
  | [a] => [sextetChar (a / 4), sextetChar (a % 4 * 16), '=', '=']
  | [a, b] => [sextetChar (a / 4), sextetChar (a % 4 * 16 + b / 16), sextetChar (b % 16 * 4), '=']
  | a :: b :: c :: rest =>
      sextetChar (a / 4) :: sextetChar (a % 4 * 16 + b / 16)
        :: sextetChar (b % 16 * 4 + c / 64) :: sextetChar (c % 64)
        :: b64encodeChars rest

/-- Python `base64.b64encode(bytes).decode("utf-8")`. -/
def b64encode (bs : List Nat) : String := String.mk (b64encodeChars bs)

/-- Decode base64 characters, 4 at a time; padding only in the final
group.  `none` on a malformed group (Python `binascii.Error`). -/
def b64chunks : List Char → Option (List Nat)
  | [] => some []
  | a :: b :: c :: d :: rest =>
    (match charVal a, charVal b with
     | some va, some vb =>
       if c = '=' then
         if d = '=' ∧ rest = [] then some [va * 4 + vb / 16] else none
       else
         (match charVal c with
          | some vc =>
            if d = '=' then
              if rest = [] then some [va * 4 + vb / 16, vb % 16 * 16 + vc / 4] else none
            else
              (match charVal d with
               | some vd =>
                 (match b64chunks rest with
                  | some tl => some ((va * 4 + vb / 16) :: (vb % 16 * 16 + vc / 4) :: (vc % 4 * 64 + vd) :: tl)
                  | none => none)
               | none => none)
          | none => none)
     | _, _ => none)
  | _ => none

/-- Python `base64.b64decode(s, validate=False)`: discard characters that
are neither alphabet nor padding, then decode; `none` when decoding
fails. -/
def pyB64decode (s : String) : Option (List Nat) :=
  b64chunks (s.data.filter (fun ch => isB64Char ch || decide (ch = '=')))

/-! ## services/rate_limiter.py -/

namespace RateLimiter

/-- Models `window_seconds = max(0, int(window_hours) * 3600)`. -/
def windowSecondsOf (window_hours : Int) : Int := max 0 (window_hours * 3600)

/-- Models `RateLimiter._prune`: keep timestamps `ts >= now - window_seconds`;
no pruning when the window is non-positive. -/
def prune (timestamps : List Rat) (window_seconds : Int) (now : Rat) : List Rat :=
  if window_seconds ≤ 0 then timestamps
  else timestamps.filter (fun ts => decide (now - (window_seconds : Rat) ≤ ts))

/-- Models `RateLimiter.check`: prune, persist the pruned list (second component),
and return `(limited, count)` with `limited = max_images > 0 and
count >= max_images`. -/
def check (timestamps : List Rat) (window_hours max_images : Int) (now : Rat) :
    (Bool × Nat) × List Rat :=
  let pruned := prune timestamps (windowSecondsOf window_hours) now
  let count := pruned.length
  ((decide (0 < max_images) && decide (max_images ≤ (count : Int)), count), pruned)

/-- Models `RateLimiter.record`: append `now`, prune, persist, return the new
count (and the persisted list). -/
def record (timestamps : List Rat) (window_hours : Int) (now : Rat) :
    Nat × List Rat :=
  let pruned := prune (timestamps ++ [now]) (windowSecondsOf window_hours) now
  (pruned.length, pruned)

end RateLimiter

/-! ## services/storage.py -/

/-- Models `storage.strip_data_uri`: empty stays empty; a `data:` URI with a comma
keeps the stripped part after the first comma; anything else is stripped. -/
def strip_data_uri (value : String) : String :=
  if value = "" then ""
  else if pyStartsWith value "data:" = true then
    match afterFirstComma value.data with
    | some rest => pyStrip (String.mk rest)
    | none => pyStrip value
  else pyStrip value

/-- Models `storage.safe_id`: replace every character outside
`[a-zA-Z0-9_.-]` by `_` and truncate to 120 characters; an empty input
stands for `"unknown"`. -/
def safe_id (value : String) : String :=
  let v := if value = "" then "unknown" else value
  String.mk ((v.data.map
    (fun c => if c.isAlphanum || c = '_' || c = '.' || c = '-' then c else '_')).take 120)

/-- Models `storage.guess_image_ext`: detect the image format from magic bytes,
defaulting to PNG. -/
def guess_image_ext (image_bytes : List Nat) : String :=
  if leadsWith [255, 216, 255] image_bytes then ".jpg"
  else if leadsWith [137, 80, 78, 71, 13, 10, 26, 10] image_bytes then ".png"
  else if leadsWith [71, 73, 70, 56, 55, 97] image_bytes
       || leadsWith [71, 73, 70, 56, 57, 97] image_bytes then ".gif"
  else if leadsWith [82, 73, 70, 70] image_bytes
       && containsSeq [87, 69, 66, 80] (image_bytes.take 16) then ".webp"
  else ".png"

/-- The persistent state of `SelfieStorage`'s base-image store: the
owner-to-filename index (`base_images.json`) and the files under
`base_images/` (filename to bytes). -/
structure StoreState where
  meta : List (String × String)
  files : List (String × List Nat)
deriving DecidableEq

/-- Models `SelfieStorage.save_base_image`: strip a data URI, base64-decode
(`error` on failure or an empty payload), pick the filename
`safe_id(owner_key) + ext`, delete the previous file when its name
differs, write the bytes and update the index.  Returns the stored
filename and the new state. -/
def save_base_image (st : StoreState) (owner_key image_base64 : String) :
    Except String (String × StoreState) :=
  let raw := strip_data_uri image_base64
  match pyB64decode raw with
  | none => Except.error "底图不是有效的 base64 图片数据"
  | some image_bytes =>
    if image_bytes = [] then Except.error "底图内容为空"
    else
      let ext := guess_image_ext image_bytes
      let filename := safe_id owner_key ++ ext
      let files1 :=
        match lookupA st.meta owner_key with
        | some old_name => if ¬ old_name = filename then removeA st.files old_name else st.files
        | none => st.files
      let files2 := setA files1 filename image_bytes
      Except.ok (filename, ⟨setA st.meta owner_key filename, files2⟩)

/-- Models `SelfieStorage.get_base_image_path`: the stored filename, re-checked
against the filesystem; `none` when the index entry is missing, falsy, or
the file is gone. -/
def get_base_image_path (st : StoreState) (owner_key : String) : Option String :=
  match lookupA st.meta owner_key with
  | none => none
  | some filename =>
    if filename = "" then none
    else
      match lookupA st.files filename with
      | none => none
      | some _ => some filename

/-- Models `SelfieStorage.read_base_image_base64`: base64 of the stored file, or
`none`. -/
def read_base_image_base64 (st : StoreState) (owner_key : String) : Option String :=
  match get_base_image_path st owner_key with
  | none => none
  | some fn => (lookupA st.files fn).map b64encode

/-- Models `SelfieStorage.clear_base_image`: pop the index entry (persisted in
both cases), delete the file when a truthy filename was present; returns
whether a record was removed, with the new state. -/
def clear_base_image (st : StoreState) (owner_key : String) : Bool × StoreState :=
  match lookupA st.meta owner_key with
  | none => (false, ⟨removeA st.meta owner_key, st.files⟩)
  | some filename =>
    if filename = "" then (false, ⟨removeA st.meta owner_key, st.files⟩)
    else (true, ⟨removeA st.meta owner_key, removeA st.files filename⟩)

/-! ## services/llm_client.py -/

/-- Models the `SelfiePromptPlan` dataclass. -/
structure SelfiePromptPlan where
  scene : String
  activity : String
  outfit : String
  pose : String
  camera : String
  lighting : String
  mood : String
  negative : String
  prompt : String
deriving DecidableEq

/-- Models `LLMClient._default_negative`: baseline quality-exclusion terms, plus
unsafe-content exclusions when NSFW is disallowed. -/
def default_negative (disallow_nsfw : Bool) : String :=
  let base := "blurry, low quality, deformed face, extra fingers, bad anatomy, watermark, text"
  if disallow_nsfw then base ++ ", nsfw, nude, sexual, erotic, gore, blood, minor, child" else base

/-- Models `LLMClient._build_prompt`: the deterministic final-prompt template. -/
def build_prompt (plan : SelfiePromptPlan) (style : String) : String :=
  "same character as reference image, consistent face shape hairstyle and signature accessories, "
    ++ style ++ " style, scene: " ++ plan.scene ++ ", activity: " ++ plan.activity
    ++ ", outfit: " ++ plan.outfit ++ ", pose: " ++ plan.pose ++ ", camera: " ++ plan.camera
    ++ ", lighting: " ++ plan.lighting ++ ", mood: " ++ plan.mood
    ++ ", natural candid selfie, high detail, realistic skin texture"

/-- Models `LLMClient._fallback_plan`: rule-based scene/activity from keyword
matches on the context, fixed defaults for the remaining fields, and the
built final prompt. -/
def fallback_plan (context_text style : String) (disallow_nsfw : Bool) : SelfiePromptPlan :=
  let context_lower := pyLower context_text
  let sceneActivity : String × String :=
    if pyContains context_text "上课" || pyContains context_text "教室" then
      ("classroom with desks, blackboard, and blurred classmates",
       "sitting at a desk listening to a lecture and taking notes")
    else if pyContains context_text "开会" || pyContains context_text "会议"
        || pyContains context_text "公司" || pyContains context_text "办公室" then
      ("office meeting room with conference table and presentation screen",
       "attending a meeting, looking at the presentation")
    else if pyContains context_text "地铁" || pyContains context_text "公交"
        || pyContains context_text "通勤" then
      ("subway carriage with handrails and commuters",
       "standing during commute holding the phone for a quick selfie")
    else if pyContains context_text "睡觉" || pyContains context_text "睡了"
        || pyContains context_text "休息" then
      ("cozy bedroom with bed and soft bedding",
       "lying on the bed, sleepy, taking a quiet selfie")
    else if pyContains context_text "吃饭" || pyContains context_text "午饭"
        || pyContains context_text "晚饭" || pyContains context_text "早餐" then
      ("home dining area with tableware",
       "sitting at the table about to eat, taking a quick selfie")
    else if pyContains context_text "打游戏" || pyContains context_text "游戏" then
      ("gaming desk with monitor and soft RGB lights",
       "sitting at the desk gaming, pausing for a quick selfie")
    else if pyContains context_text "户外" || pyContains context_text "公园"
        || pyContains context_lower "outdoor" then
      ("outdoor urban park", "standing outdoors taking a casual selfie")
    else if pyContains context_text "在家" || pyContains context_text "家里" then
      ("cozy home interior", "relaxed at home taking a casual selfie")
    else
      ("daily life indoor setting", "relaxed casual selfie while staying indoors")
  let plan0 : SelfiePromptPlan :=
    { scene := sceneActivity.1
      activity := sceneActivity.2
      outfit := "casual daily outfit"
      pose := "natural hand-held selfie"
      camera := "smartphone front camera close-up"
      lighting := "soft ambient light"
      mood := "friendly relaxed"
      negative := default_negative disallow_nsfw
      prompt := "" }
  { plan0 with prompt := build_prompt plan0 style }

/-- Models `LLMClient._ensure_plan_defaults`: replace each empty field by the
corresponding fallback-plan field. -/
def ensure_plan_defaults (plan : SelfiePromptPlan) (context_text style : String)
    (disallow_nsfw : Bool) : SelfiePromptPlan :=
  let fallback := fallback_plan context_text style disallow_nsfw
  { scene := if plan.scene = "" then fallback.scene else plan.scene
    activity := if plan.activity = "" then fallback.activity else plan.activity
    outfit := if plan.outfit = "" then fallback.outfit else plan.outfit
    pose := if plan.pose = "" then fallback.pose else plan.pose
    camera := if plan.camera = "" then fallback.camera else plan.camera
    lighting := if plan.lighting = "" then fallback.lighting else plan.lighting
    mood := if plan.mood = "" then fallback.mood else plan.mood
    negative := if plan.negative = "" then fallback.negative else plan.negative
    prompt := plan.prompt }

/-- Models `str(parsed.get(key, "")).strip()` for a parsed JSON object whose
values are modelled already stringified. -/
def parsedField (parsed : List (String × String)) (key : String) : String :=
  pyStrip ((lookupA parsed key).getD "")

/-- Models `LLMClient.generate_prompt_plan`.  The HTTP chat call together with
`_parse_json` on its response is modelled by the `chatParse` input:
`error` when `_chat` raised (HTTP status >= 400, network error, non-JSON
completion body) — the exception propagates, as in the source, which has
no try/except around `_chat` — and `ok parsed` with the (possibly empty)
object `_parse_json` produced otherwise.  An empty object triggers the
fallback plan; a non-empty one is read field-by-field, back-filled, and
given the built final prompt. -/
def generate_prompt_plan (chatParse : Except Unit (List (String × String)))
    (context_text style : String) (disallow_nsfw : Bool) :
    Except Unit SelfiePromptPlan :=
  match chatParse with
  | Except.error e => Except.error e
  | Except.ok parsed =>
    if parsed.isEmpty then Except.ok (fallback_plan context_text style disallow_nsfw)
    else
      let plan0 : SelfiePromptPlan :=
        { scene := parsedField parsed "scene"
          activity := parsedField parsed "activity"
          outfit := parsedField parsed "outfit"
          pose := parsedField parsed "pose"
          camera := parsedField parsed "camera"
          lighting := parsedField parsed "lighting"
          mood := parsedField parsed "mood"
          negative := parsedField parsed "negative"
          prompt := "" }
      let plan1 := ensure_plan_defaults plan0 context_text style disallow_nsfw
      Except.ok { plan1 with prompt := build_prompt plan1 style }

/-- Models `LLMClient.generate_refusal_reply`.  The chat call is the `chat`
input; a raised call propagates (no try/except in the source).  An empty
stripped response yields the fixed generic refusal; otherwise the first
line of the stripped response, stripped again. -/
def generate_refusal_reply (chat : Except Unit String) (context_text reason : String) :
    Except Unit String :=
  match chat with
  | Except.error e => Except.error e
  | Except.ok raw =>
    let text := pyStrip raw
    if text = "" then Except.ok "我现在有点忙，不方便拍照呢。"
    else Except.ok (pyStrip (String.mk (takeUntilNL text.data)))

/-! ## services/image_client.py -/

/-- JSON values, for image-API response bodies. -/
inductive JVal where
  | str : String → JVal
  | num : Int → JVal
  | bool : Bool → JVal
  | null : JVal
  | arr : List JVal → JVal
  | obj : List (String × JVal) → JVal

/-- A candidate field accepted when it is a string with non-empty strip:
returns `strip_data_uri(candidate.strip())`. -/
def asNonemptyStr : Option JVal → Option String
  | some (JVal.str s) => if pyStrip s = "" then none else some (strip_data_uri (pyStrip s))
  | _ => none

/-- The three per-item key candidates of `_extract_base64`'s `data` loop. -/
def extractItemKeys (fields : List (String × JVal)) : Option String :=
  asNonemptyStr (lookupA fields "b64_json") <|> asNonemptyStr (lookupA fields "base64")
    <|> asNonemptyStr (lookupA fields "image_base64")

/-- The `url` candidate of `_extract_base64`'s `data` loop: a
`data:image/...` URI containing a comma. -/
def extractItemUrl (fields : List (String × JVal)) : Option String :=
  match lookupA fields "url" with
  | some (JVal.str u) =>
    if pyStartsWith u "data:image/" && (afterFirstComma u.data).isSome
    then some (strip_data_uri u) else none
  | _ => none

/-- The `data`-array part of `_extract_base64`: first dict item yielding a
key or url candidate wins; non-dict items are skipped. -/
def extractFromItems : List JVal → Option String
  | [] => none
  | JVal.obj fields :: rest =>
    (extractItemKeys fields <|> extractItemUrl fields) <|> extractFromItems rest
  | _ :: rest => extractFromItems rest

/-- Models `ImageClient._extract_base64`: top-level string candidates
(`image_base64`, `b64_json`, `base64`, `output`) in order, then the
`data` array; `none` for any other shape. -/
def extract_base64 (data : JVal) : Option String :=
  match data with
  | JVal.obj fields =>
    (asNonemptyStr (lookupA fields "image_base64")
      <|> asNonemptyStr (lookupA fields "b64_json")
      <|> asNonemptyStr (lookupA fields "base64")
      <|> asNonemptyStr (lookupA fields "output"))
    <|> (match lookupA fields "data" with
         | some (JVal.arr rows) => extractFromItems rows
         | _ => none)
  | _ => none

/-- The endpoint loop of `generate_with_reference`: each element is the
outcome of `_post_json` for one endpoint (`error` = the raised exception
text).  A truthy extracted image returns; an exception updates
`last_error`; an unextractable 200-response leaves it; exhaustion raises
the generation error with the last observed error text (or the default
when none was observed). -/
def tryEndpoints : List (Except String JVal) → String → Except String String
  | [], last_error =>
    Except.error ("图片生成失败: " ++ (if last_error = "" then "无可用响应" else last_error))
  | r :: rest, last_error =>
    match r with
    | Except.error e => tryEndpoints rest e
    | Except.ok data =>
      match extract_base64 data with
      | some s => if s = "" then tryEndpoints rest last_error else Except.ok s
      | none => tryEndpoints rest last_error

/-- Models `ImageClient.generate_with_reference`: config checks, then the
candidate endpoints `/images/edits` and `/images/generations` in order.
The HTTP outcomes are the `resp_edits`/`resp_generations` inputs; the
payload fields (prompt, negative prompt, reference image, size) only feed
the request body and do not affect extraction. -/
def generate_with_reference (api_base model prompt negative_prompt base_image_base64 image_size : String)
    (resp_edits resp_generations : Except String JVal) : Except String String :=
  if api_base = "" then Except.error "image_api_base 未配置"
  else if model = "" then Except.error "image_model 未配置"
  else tryEndpoints [resp_edits, resp_generations] ""

/-! ## components/action_selfie.py -/

/-- The outcome of one `SelfieAutoAction.execute` invocation, one
constructor per `return` site: plugin disabled, selfie disabled, keyword
miss, cooling down, missing base image, rate limited (refusal sent),
success, send failure (image produced but delivery failed), and the
catch-all exception path. -/
inductive ExecResult where
  | pluginDisabled
  | selfieDisabled
  | keywordMiss
  | coolingDown
  | missingBase
  | rateLimited
  | sent
  | sendFailed
  | failed
deriving DecidableEq

/-- The persisted success state the orchestrator touches: the per-owner
last-trigger map (`rate_limit.json`) and the rate-limit timestamp list of
the active scope (`ratelimit_<scope>.json`). -/
structure ExecState where
  lastTrigger : List (String × Rat)
  rate : List Rat
deriving DecidableEq

/-- Models `SelfieStorage.get_last_trigger`: `0.0` when absent. -/
def getLastTrigger (m : List (String × Rat)) (owner_key : String) : Rat :=
  (lookupA m owner_key).getD 0

/-- One invocation's environment: configuration values as read by
`get_config` (before the `or default` coercions), the trigger/keyword and
base-image lookups, and the outcomes of every external call the body can
make. -/
structure ExecEnv where
  pluginEnabled : Bool
  selfieEnabled : Bool
  keywordHit : Bool
  cooldownCfg : Int
  ownerKey : String
  now : Rat
  hasBase : Bool
  contextText : String
  style : String
  nsfw : Bool
  rateLimitEnabled : Bool
  windowHoursCfg : Int
  maxImagesCfg : Int
  refusalChat : Except Unit String
  sendRefusal : Except Unit Unit
  chatParse : Except Unit (List (String × String))
  imgApiBase : String
  imgModel : String
  baseB64 : String
  imgSize : String
  imgResp1 : Except String JVal
  imgResp2 : Except String JVal
  sendImage : Except Unit Bool

/-- The tail of `execute` from planning on (shared by the rate-limited
and rate-limit-disabled control paths): plan, generate, deliver; on a
successful send update the last-trigger map and, when rate limiting is
on, record the event; any raise or a falsy send result leaves `s1`. -/
def selfiePipeline (env : ExecEnv) (s1 : ExecState) (rateOn : Bool) (windowHours : Int) :
    ExecResult × ExecState :=
  match generate_prompt_plan env.chatParse env.contextText env.style env.nsfw with
  | Except.error _ => (ExecResult.failed, s1)
  | Except.ok plan =>
    match generate_with_reference env.imgApiBase env.imgModel plan.prompt plan.negative
        env.baseB64 env.imgSize env.imgResp1 env.imgResp2 with
    | Except.error _ => (ExecResult.failed, s1)
    | Except.ok _ =>
      match env.sendImage with
      | Except.error _ => (ExecResult.failed, s1)
      | Except.ok false => (ExecResult.sendFailed, s1)
      | Except.ok true =>
        (ExecResult.sent,
          ⟨setA s1.lastTrigger env.ownerKey env.now,
           if rateOn then (RateLimiter.record s1.rate windowHours env.now).2 else s1.rate⟩)

/-- Models `SelfieAutoAction.execute`: enabled checks, keyword check, cooldown
check (`int(cfg or 30)`), base-image check, optional rate-limit check
(which persists its pruned list), then the plan/generate/deliver
pipeline.  Returns the invocation result and the final persisted
state. -/
def execute (env : ExecEnv) (s : ExecState) : ExecResult × ExecState :=
  if env.pluginEnabled = false then (ExecResult.pluginDisabled, s)
  else if env.selfieEnabled = false then (ExecResult.selfieDisabled, s)
  else if env.keywordHit = false then (ExecResult.keywordMiss, s)
  else
    let cooldown := pyIntOr env.cooldownCfg 30
    let lastTs := getLastTrigger s.lastTrigger env.ownerKey
    if 0 < cooldown ∧ env.now - lastTs < (cooldown : Rat) then (ExecResult.coolingDown, s)
    else if env.hasBase = false then (ExecResult.missingBase, s)
    else
      let windowHours := pyIntOr env.windowHoursCfg 6
      let maxImages := pyIntOr env.maxImagesCfg 3
      if env.rateLimitEnabled then
        let checked := RateLimiter.check s.rate windowHours maxImages env.now
        let s1 : ExecState := ⟨s.lastTrigger, checked.2⟩
        if checked.1.1 then
          match generate_refusal_reply env.refusalChat env.contextText
              (toString windowHours ++ " 小时内已拍了太多张照片") with
          | Except.error _ => (ExecResult.failed, s1)
          | Except.ok _ =>
            match env.sendRefusal with
            | Except.error _ => (ExecResult.failed, s1)
            | Except.ok _ => (ExecResult.rateLimited, s1)
        else selfiePipeline env s1 true windowHours
      else selfiePipeline env s false windowHours

/-- Whether control reaches the section after the base-image check:
plugin and selfie enabled, keyword hit, not cooling down, base image
present. -/
def passesPreChecks (env : ExecEnv) (s : ExecState) : Bool :=
  env.pluginEnabled && env.selfieEnabled && env.keywordHit
    && !(decide (0 < pyIntOr env.cooldownCfg 30
         ∧ env.now - getLastTrigger s.lastTrigger env.ownerKey < (pyIntOr env.cooldownCfg 30 : Rat)))
    && env.hasBase

/-- The `limited` flag the rate-limit check computes on this state. -/
def limitedAtCheck (env : ExecEnv) (s : ExecState) : Bool :=
  (RateLimiter.check s.rate (pyIntOr env.windowHoursCfg 6) (pyIntOr env.maxImagesCfg 3) env.now).1.1

/-- The persisted state exactly as the cooldown and rate-limit checks saw
it: the last-trigger map untouched, and the timestamp list pruned (and
persisted) by the rate-limit check when that check ran. -/
def seenByChecks (env : ExecEnv) (s : ExecState) : ExecState :=
  if passesPreChecks env s && env.rateLimitEnabled then
    ⟨s.lastTrigger,
     (RateLimiter.check s.rate (pyIntOr env.windowHoursCfg 6) (pyIntOr env.maxImagesCfg 3) env.now).2⟩
  else s

/-- The `done` state: the last-trigger timestamp set for the owner and the
rate-limit event recorded (when rate limiting is on), on top of the state
the checks saw. -/
def doneState (env : ExecEnv) (s : ExecState) : ExecState :=
  let s1 := seenByChecks env s
  ⟨setA s1.lastTrigger env.ownerKey env.now,
   if env.rateLimitEnabled then (RateLimiter.record s1.rate (pyIntOr env.windowHoursCfg 6) env.now).2
   else s1.rate⟩

/-- Whether the planning/generation/delivery tail runs to a send that
reports success. -/
def pipelineOk (env : ExecEnv) : Bool :=
  match generate_prompt_plan env.chatParse env.contextText env.style env.nsfw with
  | Except.error _ => false
  | Except.ok plan =>
    match generate_with_reference env.imgApiBase env.imgModel plan.prompt plan.negative
        env.baseB64 env.imgSize env.imgResp1 env.imgResp2 with
    | Except.error _ => false
    | Except.ok _ =>
      match env.sendImage with
      | Except.ok true => true
      | _ => false

/-- Whether this invocation reaches delivery and the image send reports
success: all checks pass, not rate limited, the planner call and the
image generation return, and the send returns `True`. -/
def deliverySucceeds (env : ExecEnv) (s : ExecState) : Bool :=
  passesPreChecks env s
    && !(env.rateLimitEnabled && limitedAtCheck env s)
    && pipelineOk env

/-! ## Claim proofs -/

/-- C2: for every persisted timestamp list, window, max and now,
`RateLimiter.check` persists back exactly the timestamps not strictly
older than `now - window_hours*3600` (everything, when
`window_hours <= 0`), returns the post-prune count, and returns
`limited` exactly when `max_count > 0` and the post-prune count reaches
it; concretely, three records within a 1-hour window followed by a check
with max 3 give `(limited = true, count = 3)`, and a check after the
window has elapsed gives `(limited = false, count = 0)`. -/
theorem rate_limiter_check_correct :
    (∀ (ts : List Rat) (wh mc : Int) (now : Rat),
      (RateLimiter.check ts wh mc now).2
          = (if 0 < wh then ts.filter (fun t => decide (¬ t < now - (wh : Rat) * 3600)) else ts)
        ∧ (RateLimiter.check ts wh mc now).1.2 = (RateLimiter.check ts wh mc now).2.length
        ∧ ((RateLimiter.check ts wh mc now).1.1 = true
            ↔ 0 < mc ∧ mc ≤ ((RateLimiter.check ts wh mc now).2.length : Int)))
    ∧ (RateLimiter.check
        (RateLimiter.record (RateLimiter.record (RateLimiter.record [] 1 0).2 1 1).2 1 2).2
        1 3 2).1 = (true, 3)
    ∧ (RateLimiter.check
        (RateLimiter.record (RateLimiter.record (RateLimiter.record [] 1 0).2 1 1).2 1 2).2
        1 3 3700).1 = (false, 0) := by
  refine ⟨fun ts wh mc now => ⟨?_, rfl, ?_⟩, ?_, ?_⟩
  · by_cases hwh : 0 < wh
    · have hpos : (0 : Int) < wh * 3600 := by omega
      have hws : RateLimiter.windowSecondsOf wh = wh * 3600 := max_eq_right hpos.le
      simp only [RateLimiter.check, RateLimiter.prune, hws, if_pos hwh,
        if_neg (not_le.mpr hpos)]
      refine List.filter_congr ?_
      intro t _
      have hc : ((wh * 3600 : Int) : Rat) = (wh : Rat) * 3600 := by push_cast; ring
      rw [hc]
      exact decide_eq_decide.mpr not_lt.symm
    · have hle : RateLimiter.windowSecondsOf wh ≤ 0 := max_le le_rfl (by omega)
      simp only [RateLimiter.check, RateLimiter.prune, if_pos hle, if_neg hwh]
  · simp only [RateLimiter.check, Bool.and_eq_true, decide_eq_true_eq]
  · norm_num [RateLimiter.check, RateLimiter.record, RateLimiter.prune,
      RateLimiter.windowSecondsOf]
  · norm_num [RateLimiter.check, RateLimiter.record, RateLimiter.prune,
      RateLimiter.windowSecondsOf]

/-- C10: `RateLimiter.record` always reports a count of at least 1: the
timestamp it appends survives its own prune, because the threshold
`now - window_seconds` never exceeds `now`. -/
theorem rate_limiter_record_count_pos (ts : List Rat) (wh : Int) (now : Rat) :
    1 ≤ (RateLimiter.record ts wh now).1 := by
  unfold RateLimiter.record
  by_cases h : RateLimiter.windowSecondsOf wh ≤ 0
  · simp only [RateLimiter.prune, if_pos h, List.length_append, List.length_singleton]
    omega
  · simp only [RateLimiter.prune, if_neg h]
    have h0 : (0 : Int) ≤ RateLimiter.windowSecondsOf wh := le_max_left 0 _
    have h0q : (0 : Rat) ≤ (RateLimiter.windowSecondsOf wh : Rat) := by exact_mod_cast h0
    have hmem : now ∈ (ts ++ [now]).filter
        (fun t => decide (now - (RateLimiter.windowSecondsOf wh : Rat) ≤ t)) := by
      refine List.mem_filter.mpr ⟨by simp, ?_⟩
      simp only [decide_eq_true_eq]
      linarith
    have hne : (ts ++ [now]).filter
        (fun t => decide (now - (RateLimiter.windowSecondsOf wh : Rat) ≤ t)) ≠ [] :=
      List.ne_nil_of_mem hmem
    have := List.length_pos.mpr hne
    omega

/-- Concrete environment exhibiting the cooldown-zero behaviour: the
host configuration stores `selfie.cooldown_seconds = 0`; every other
value is an ordinary successful setup. -/
def c3Env : ExecEnv :=
  { pluginEnabled := true, selfieEnabled := true, keywordHit := true,
    cooldownCfg := 0, ownerKey := "chat_group1", now := 110, hasBase := true,
    contextText := "来张自拍", style := "写实", nsfw := true,
    rateLimitEnabled := true, windowHoursCfg := 6, maxImagesCfg := 3,
    refusalChat := Except.ok "好", sendRefusal := Except.ok (),
    chatParse := Except.ok [], imgApiBase := "https://api.example.com/v1",
    imgModel := "gpt-image-1", baseB64 := "QUJD", imgSize := "1024x1024",
    imgResp1 := Except.ok (JVal.obj []), imgResp2 := Except.ok (JVal.obj []),
    sendImage := Except.ok true }

/-- C3: with `selfie.cooldown_seconds` configured to `0` (a value the
schema admits, range 0-3600), a trigger 10 seconds after the stored
last-trigger timestamp is still suppressed as "cooling down": the
retrieval `int(get_config(...) or 30)` turns the configured `0` into an
effective cooldown of 30 seconds, contradicting the claim that a zero
cooldown never suppresses. -/
theorem cooldown_zero_still_suppresses :
    execute c3Env ⟨[("chat_group1", 100)], []⟩
        = (ExecResult.coolingDown, ⟨[("chat_group1", 100)], []⟩)
      ∧ pyIntOr (0 : Int) 30 = 30 := by
  constructor
  · norm_num [execute, c3Env, getLastTrigger, lookupA, pyIntOr]
  · norm_num [pyIntOr]

/-- A string with a non-empty right append component is non-empty. -/
lemma append_ne_empty_right (a b : String) (hb : b ≠ "") : a ++ b ≠ "" := by
  intro h
  have h2 := congrArg String.data h
  rw [String.data_append] at h2
  rcases List.append_eq_nil.mp h2 with ⟨-, hbnil⟩
  apply hb
  cases b with
  | mk d => cases hbnil; rfl

/-- Every field of a fallback plan is non-empty. -/
lemma fallback_plan_fields_ne (ctx sty : String) (nsfw : Bool) :
    (fallback_plan ctx sty nsfw).scene ≠ "" ∧ (fallback_plan ctx sty nsfw).activity ≠ ""
    ∧ (fallback_plan ctx sty nsfw).outfit ≠ "" ∧ (fallback_plan ctx sty nsfw).pose ≠ ""
    ∧ (fallback_plan ctx sty nsfw).camera ≠ "" ∧ (fallback_plan ctx sty nsfw).lighting ≠ ""
    ∧ (fallback_plan ctx sty nsfw).mood ≠ "" ∧ (fallback_plan ctx sty nsfw).negative ≠ ""
    ∧ (fallback_plan ctx sty nsfw).prompt ≠ "" := by
  unfold fallback_plan
  dsimp only
  refine ⟨?_, ?_, by decide, by decide, by decide, by decide, by decide, ?_, ?_⟩
  · (repeat' split) <;> decide
  · (repeat' split) <;> decide
  · unfold default_negative
    cases nsfw <;> decide
  · unfold build_prompt
    exact append_ne_empty_right _ _ (by decide)

/-- C6: whatever object the text-model response parses to (including a
partial or empty one), every field of a plan the planner returns to its
caller is non-empty: empty or missing fields are back-filled from the
fallback plan and the final prompt is rebuilt. -/
theorem plan_fields_nonempty (chatParse : Except Unit (List (String × String)))
    (ctx sty : String) (nsfw : Bool) (plan : SelfiePromptPlan)
    (h : generate_prompt_plan chatParse ctx sty nsfw = Except.ok plan) :
    plan.scene ≠ "" ∧ plan.activity ≠ "" ∧ plan.outfit ≠ "" ∧ plan.pose ≠ ""
    ∧ plan.camera ≠ "" ∧ plan.lighting ≠ "" ∧ plan.mood ≠ "" ∧ plan.negative ≠ ""
    ∧ plan.prompt ≠ "" := by
  obtain ⟨f1, f2, f3, f4, f5, f6, f7, f8, f9⟩ := fallback_plan_fields_ne ctx sty nsfw
  cases chatParse with
  | error e => simp [generate_prompt_plan] at h
  | ok parsed =>
    by_cases hp : parsed.isEmpty
    · simp only [generate_prompt_plan, if_pos hp, Except.ok.injEq] at h
      subst h
      exact ⟨f1, f2, f3, f4, f5, f6, f7, f8, f9⟩
    · simp only [generate_prompt_plan, if_neg hp, Except.ok.injEq] at h
      subst h
      unfold ensure_plan_defaults
      dsimp only
      refine ⟨?_, ?_, ?_, ?_, ?_, ?_, ?_, ?_, ?_⟩
      · split <;> simp_all
      · split <;> simp_all
      · split <;> simp_all
      · split <;> simp_all
      · split <;> simp_all
      · split <;> simp_all
      · split <;> simp_all
      · split <;> simp_all
      · exact append_ne_empty_right _ _ (by decide)

/-- Witness for C6 at a concrete partial response: the model supplied only
a scene, every other field comes from the fallback. -/
theorem plan_fields_nonempty_witness :
    (fallback_plan "你好" "写实" true).scene ≠ ""
    ∧ (fallback_plan "你好" "写实" true).activity ≠ ""
    ∧ (fallback_plan "你好" "写实" true).outfit ≠ ""
    ∧ (fallback_plan "你好" "写实" true).pose ≠ ""
    ∧ (fallback_plan "你好" "写实" true).camera ≠ ""
    ∧ (fallback_plan "你好" "写实" true).lighting ≠ ""
    ∧ (fallback_plan "你好" "写实" true).mood ≠ ""
    ∧ (fallback_plan "你好" "写实" true).negative ≠ ""
    ∧ (fallback_plan "你好" "写实" true).prompt ≠ "" :=
  plan_fields_nonempty (Except.ok []) "你好" "写实" true
    (fallback_plan "你好" "写实" true) rfl

/-- Counterexample to C4 as stated: when the text-completion call itself
fails (modelled by the `error` chat outcome, the raised `RuntimeError` of
`_chat`), `generate_prompt_plan` does not return the fallback plan — the
exception propagates to the caller. -/
theorem prompt_plan_error_propagates :
    generate_prompt_plan (Except.error ()) "在教室上课" "写实" true
      ≠ Except.ok (fallback_plan "在教室上课" "写实" true) := by
  simp [generate_prompt_plan]

/-- C4 (amended): the fallback plan is produced when the call succeeds but
its response yields no parsable JSON object (empty parse result), while a
failing call propagates its error; for context containing "教室" the
fallback scene is the classroom description and the negative field
contains the baseline quality-exclusion terms. -/
theorem prompt_plan_fallback_on_unparsable (ctx sty : String) (nsfw : Bool) (e : Unit)
    (hclass : pyContains ctx "教室" = true) :
    generate_prompt_plan (Except.ok []) ctx sty nsfw = Except.ok (fallback_plan ctx sty nsfw)
    ∧ generate_prompt_plan (Except.error e) ctx sty nsfw = Except.error e
    ∧ (fallback_plan ctx sty nsfw).scene
        = "classroom with desks, blackboard, and blurred classmates"
    ∧ pyContains (fallback_plan ctx sty nsfw).negative
        "blurry, low quality, deformed face, extra fingers, bad anatomy, watermark, text"
        = true := by
  refine ⟨rfl, rfl, ?_, ?_⟩
  · unfold fallback_plan
    dsimp only
    rw [hclass]
    simp
  · unfold fallback_plan
    dsimp only
    unfold default_negative
    cases nsfw <;> decide

/-- Witness for C4 (amended) at context "我在教室". -/
theorem prompt_plan_fallback_witness :
    generate_prompt_plan (Except.ok []) "我在教室" "写实" true
        = Except.ok (fallback_plan "我在教室" "写实" true)
    ∧ generate_prompt_plan (Except.error ()) "我在教室" "写实" true = Except.error ()
    ∧ (fallback_plan "我在教室" "写实" true).scene
        = "classroom with desks, blackboard, and blurred classmates"
    ∧ pyContains (fallback_plan "我在教室" "写实" true).negative
        "blurry, low quality, deformed face, extra fingers, bad anatomy, watermark, text"
        = true :=
  prompt_plan_fallback_on_unparsable "我在教室" "写实" true () (by decide)

/-- Lemma: `takeUntilNL` never keeps a newline. -/
lemma newline_not_mem_takeUntilNL : ∀ l : List Char, '\n' ∉ takeUntilNL l := by
  intro l
  induction l with
  | nil => simp [takeUntilNL]
  | cons c cs ih =>
    by_cases hc : c = '\n'
    · simp [takeUntilNL, hc]
    · simp only [takeUntilNL, if_neg hc, List.mem_cons]
      rintro (h | h)
      · exact hc h.symm
      · exact ih h

/-- Stripping only drops characters. -/
lemma mem_of_mem_stripChars (c : Char) (l : List Char) (h : c ∈ stripChars l) : c ∈ l := by
  unfold stripChars at h
  rw [List.mem_reverse] at h
  have h1 := (List.dropWhile_sublist _).subset h
  rw [List.mem_reverse] at h1
  exact (List.dropWhile_sublist _).subset h1

/-- A one-character needle found by `containsSeq` is a member. -/
lemma mem_of_containsSeq_single (c : Char) :
    ∀ l : List Char, containsSeq [c] l = true → c ∈ l := by
  intro l
  induction l with
  | nil => intro h; simp [containsSeq, leadsWith] at h
  | cons x xs ih =>
    intro h
    simp only [containsSeq, leadsWith, Bool.or_eq_true, Bool.and_eq_true,
      decide_eq_true_eq] at h
    rcases h with ⟨hcx, -⟩ | h
    · exact hcx ▸ List.mem_cons_self x xs
    · exact List.mem_cons_of_mem x (ih h)

/-- Counterexample to C9 as stated: when the text-completion call fails
(`error` outcome of `_chat`), `generate_refusal_reply` does not return
the fixed generic refusal string — the exception propagates. -/
theorem refusal_reply_error_propagates :
    generate_refusal_reply (Except.error ()) "上下文" "理由"
      ≠ Except.ok "我现在有点忙，不方便拍照呢。" := by
  simp [generate_refusal_reply]

/-- C9 (amended): a failing call propagates its error; a successful
response that is empty after stripping yields the fixed generic refusal;
otherwise the reply is the first line of the stripped response, stripped
again — and that first line contains no newline. -/
theorem refusal_reply_first_line (ctx reason raw : String) (e : Unit) :
    generate_refusal_reply (Except.error e) ctx reason = Except.error e
    ∧ (pyStrip raw = "" → generate_refusal_reply (Except.ok raw) ctx reason
        = Except.ok "我现在有点忙，不方便拍照呢。")
    ∧ (pyStrip raw ≠ "" → generate_refusal_reply (Except.ok raw) ctx reason
        = Except.ok (pyStrip (String.mk (takeUntilNL (pyStrip raw).data))))
    ∧ pyContains (pyStrip (String.mk (takeUntilNL (pyStrip raw).data))) "\n" = false := by
  refine ⟨rfl, ?_, ?_, ?_⟩
  · intro h
    simp [generate_refusal_reply, h]
  · intro h
    simp [generate_refusal_reply, h]
  · by_contra hbad
    rw [Bool.not_eq_false] at hbad
    have h1 : '\n' ∈ stripChars (takeUntilNL (pyStrip raw).data) := by
      have := mem_of_containsSeq_single '\n' _ hbad
      simpa [pyContains, pyStrip] using this
    exact newline_not_mem_takeUntilNL _ (mem_of_mem_stripChars _ _ h1)

/-- Witness for C9 (amended): a two-line padded response yields its first
line, and an all-whitespace response yields the generic refusal. -/
theorem refusal_reply_first_line_witness :
    generate_refusal_reply (Except.ok " 好的呀\n其他行 ") "上下文" "理由" = Except.ok "好的呀"
    ∧ generate_refusal_reply (Except.ok "   ") "上下文" "理由"
        = Except.ok "我现在有点忙，不方便拍照呢。" := by
  constructor
  · have h := (refusal_reply_first_line "上下文" "理由" " 好的呀\n其他行 " ()).2.2.1 (by decide)
    rw [h]
    exact congrArg Except.ok (by decide)
  · exact (refusal_reply_first_line "上下文" "理由" "   " ()).2.1 (by decide)

/-- A string with a non-empty left append component is non-empty. -/
lemma append_ne_empty_left (a b : String) (ha : a ≠ "") : a ++ b ≠ "" := by
  intro h
  have h2 := congrArg String.data h
  rw [String.data_append] at h2
  rcases List.append_eq_nil.mp h2 with ⟨hanil, -⟩
  apply ha
  cases a with
  | mk d => cases hanil; rfl

/-- Rebuilding a string from its characters is the identity. -/
lemma string_mk_data (s : String) : String.mk s.data = s := by
  cases s
  rfl

/-- The data-URI prefix used in image responses: everything after its
single comma is the payload. -/
lemma afterFirstComma_dataUriHead (l : List Char) :
    afterFirstComma (("data:image/png;base64," : String).data ++ l) = some l := rfl

/-- The concatenated data URI starts with `data:image/`. -/
lemma dataUri_startsWith_image (b : String) :
    pyStartsWith ("data:image/png;base64," ++ b) "data:image/" = true := by
  simp only [pyStartsWith, String.data_append]
  rfl

/-- The concatenated data URI starts with `data:`. -/
lemma dataUri_startsWith_data (b : String) :
    pyStartsWith ("data:image/png;base64," ++ b) "data:" = true := by
  simp only [pyStartsWith, String.data_append]
  rfl

/-- Applying `strip_data_uri` to the standard PNG data URI recovers the stripped
payload. -/
lemma strip_data_uri_dataUri (b : String) :
    strip_data_uri ("data:image/png;base64," ++ b) = pyStrip b := by
  unfold strip_data_uri
  rw [if_neg (append_ne_empty_left _ _ (by decide)), if_pos (dataUri_startsWith_data b),
    String.data_append, afterFirstComma_dataUriHead]

/-- Here `strip_data_uri` is the identity on a stripped non-data string. -/
lemma strip_data_uri_plain (b : String) (hb : pyStrip b = b) (hne : ¬ b = "")
    (hd : pyStartsWith b "data:" = false) : strip_data_uri b = b := by
  unfold strip_data_uri
  rw [if_neg hne, hd]
  simp [hb]

/-- C5: extraction and the endpoint loop.  A `data` row carrying
`b64_json` yields the payload exactly; a `data` row carrying a
`data:image/...;base64,` URL yields the payload with the prefix
stripped; an unrecognized shape extracts nothing and the loop moves to
the next candidate endpoint with `last_error` unchanged; and when every
endpoint raises, the generator fails with the generation error carrying
the last observed error text. -/
theorem image_extraction_correct (b e1 e2 le p n i sz : String)
    (rest : List (Except String JVal))
    (hb : pyStrip b = b) (hne : ¬ b = "") (hd : pyStartsWith b "data:" = false)
    (he2 : ¬ e2 = "") :
    extract_base64 (JVal.obj [("data", JVal.arr [JVal.obj [("b64_json", JVal.str b)]])])
        = some b
    ∧ extract_base64 (JVal.obj [("data",
          JVal.arr [JVal.obj [("url", JVal.str ("data:image/png;base64," ++ b))]])])
        = some b
    ∧ extract_base64 (JVal.obj [("status", JVal.str "ok")]) = none
    ∧ tryEndpoints (Except.ok (JVal.obj [("status", JVal.str "ok")]) :: rest) le
        = tryEndpoints rest le
    ∧ generate_with_reference "https://api.example.com/v1" "gpt-image-1" p n i sz
          (Except.error e1) (Except.error e2)
        = Except.error ("图片生成失败: " ++ e2) := by
  refine ⟨?_, ?_, rfl, rfl, ?_⟩
  · simp [extract_base64, lookupA, extractFromItems, extractItemKeys, extractItemUrl,
      asNonemptyStr, hb, hne, strip_data_uri_plain b hb hne hd]
  · have hurl : extractItemUrl [("url", JVal.str ("data:image/png;base64," ++ b))]
        = some (pyStrip b) := by
      show (if (pyStartsWith ("data:image/png;base64," ++ b) "data:image/"
            && (afterFirstComma ("data:image/png;base64," ++ b).data).isSome) = true
          then some (strip_data_uri ("data:image/png;base64," ++ b)) else none)
          = some (pyStrip b)
      rw [dataUri_startsWith_image, String.data_append, afterFirstComma_dataUriHead]
      simp [strip_data_uri_dataUri]
    simp [extract_base64, lookupA, extractFromItems, extractItemKeys,
      asNonemptyStr, hurl, hb]
  · simp only [generate_with_reference, tryEndpoints]
    rw [if_neg (show ¬ ("https://api.example.com/v1" : String) = "" by decide),
      if_neg (show ¬ ("gpt-image-1" : String) = "" by decide), if_neg he2]

/-- Witness for C5 at the payload `"QUJD"` and two failing endpoints. -/
theorem image_extraction_witness :
    extract_base64 (JVal.obj [("data", JVal.arr [JVal.obj [("b64_json", JVal.str "QUJD")]])])
        = some "QUJD"
    ∧ extract_base64 (JVal.obj [("data",
          JVal.arr [JVal.obj [("url", JVal.str ("data:image/png;base64," ++ "QUJD"))]])])
        = some "QUJD"
    ∧ extract_base64 (JVal.obj [("status", JVal.str "ok")]) = none
    ∧ tryEndpoints (Except.ok (JVal.obj [("status", JVal.str "ok")]) :: []) "x"
        = tryEndpoints [] "x"
    ∧ generate_with_reference "https://api.example.com/v1" "gpt-image-1" "p" "n" "i" "1024x1024"
          (Except.error "HTTP 500: a") (Except.error "HTTP 502: b")
        = Except.error ("图片生成失败: " ++ "HTTP 502: b") :=
  image_extraction_correct "QUJD" "HTTP 500: a" "HTTP 502: b" "x" "p" "n" "i" "1024x1024" []
    (by decide) (by decide) (by decide) (by decide)

/-- Looking up a removed key finds nothing. -/
lemma lookupA_removeA {α : Type} (l : List (String × α)) (k : String) :
    lookupA (removeA l k) k = none := by
  induction l with
  | nil => rfl
  | cons p rest ih =>
    by_cases hp : p.1 = k
    · simpa [removeA, hp] using ih
    · simpa [removeA, lookupA, hp] using ih

/-- C8: `clear_reference_image` returns true exactly when a record
existed (in any state satisfying the store invariant that indexed
filenames are non-empty), the record is gone afterwards, and an
immediately repeated call returns false. -/
theorem clear_base_image_idempotent (st : StoreState) (owner : String)
    (hinv : match lookupA st.meta owner with
            | some fn => fn ≠ ""
            | none => True) :
    ((clear_base_image st owner).1 = true ↔ (lookupA st.meta owner).isSome = true)
    ∧ lookupA (clear_base_image st owner).2.meta owner = none
    ∧ (clear_base_image (clear_base_image st owner).2 owner).1 = false := by
  cases hlook : lookupA st.meta owner with
  | none =>
    simp only [clear_base_image, hlook]
    refine ⟨by simp, ?_, ?_⟩
    · exact lookupA_removeA st.meta owner
    · simp [clear_base_image, lookupA_removeA st.meta owner]
  | some fn =>
    rw [hlook] at hinv
    simp only [clear_base_image, hlook, if_neg hinv]
    refine ⟨by simp, ?_, ?_⟩
    · exact lookupA_removeA st.meta owner
    · simp [clear_base_image, lookupA_removeA st.meta owner]

/-- Witness for C8 on a one-record store. -/
theorem clear_base_image_idempotent_witness :
    ((clear_base_image ⟨[("chat_1", "chat_1.png")], [("chat_1.png", [1, 2, 3])]⟩ "chat_1").1
          = true
        ↔ (lookupA [("chat_1", "chat_1.png")] "chat_1").isSome = true)
    ∧ lookupA (clear_base_image ⟨[("chat_1", "chat_1.png")], [("chat_1.png", [1, 2, 3])]⟩
        "chat_1").2.meta "chat_1" = none
    ∧ (clear_base_image (clear_base_image
        ⟨[("chat_1", "chat_1.png")], [("chat_1.png", [1, 2, 3])]⟩ "chat_1").2 "chat_1").1
        = false :=
  clear_base_image_idempotent ⟨[("chat_1", "chat_1.png")], [("chat_1.png", [1, 2, 3])]⟩
    "chat_1" (show ("chat_1.png" : String) ≠ "" by decide)

/-- The base64 alphabet has 64 characters. -/
lemma b64Alphabet_length : b64Alphabet.length = 64 := by decide

/-- Lemma: `charVal` inverts `sextetChar` on 6-bit values. -/
lemma charVal_sextetChar : ∀ n < 64, charVal (sextetChar n) = some n := by decide

/-- Lemma: `sextetChar` never produces the padding character. -/
lemma sextetChar_ne_pad : ∀ n < 64, ¬ sextetChar n = '=' := by decide

/-- Every `sextetChar` output is an alphabet character. -/
lemma isB64Char_sextetChar (n : Nat) : isB64Char (sextetChar n) = true := by
  by_cases h : n < 64
  · have hall : ∀ m < 64, isB64Char (sextetChar m) = true := by decide
    exact hall n h
  · unfold sextetChar
    rw [List.getD_eq_default _ _ (by rw [b64Alphabet_length]; omega)]
    decide

/-- A found index is below the end of the scanned list. -/
lemma charIdxAux_lt : ∀ (l : List Char) (c : Char) (i n : Nat),
    charIdxAux l c i = some n → n < i + l.length := by
  intro l
  induction l with
  | nil => intro c i n h; exact Option.noConfusion h
  | cons x xs ih =>
    intro c i n h
    simp only [charIdxAux] at h
    by_cases hx : x = c
    · rw [if_pos hx] at h
      injection h with h
      subst h
      simp only [List.length_cons]
      omega
    · rw [if_neg hx] at h
      have := ih c (i + 1) n h
      simp only [List.length_cons]
      omega

/-- Alphabet values are 6-bit. -/
lemma charVal_lt (c : Char) (n : Nat) (h : charVal c = some n) : n < 64 := by
  have := charIdxAux_lt b64Alphabet c 0 n h
  rw [b64Alphabet_length] at this
  omega

/-- Every byte produced by the chunk decoder is below 256. -/
lemma b64chunks_bytes_lt (cs : List Char) :
    ∀ bs : List Nat, b64chunks cs = some bs → ∀ x ∈ bs, x < 256 := by
  induction cs using b64chunks.induct with
  | case1 =>
    intro bs h x hx
    injection h with h
    subst h
    simp at hx
  | case2 =>
    rename_i a b d rest va vb hvb hva hpad
    intro bs h x hx
    have hva2 := charVal_lt _ _ hva
    have hvb2 := charVal_lt _ _ hvb
    obtain ⟨rfl, rfl⟩ := hpad
    simp [b64chunks, hva, hvb] at h
    subst h
    simp at hx
    omega
  | case3 =>
    rename_i a b d rest va vb hvb hva hpad
    intro bs h x hx
    simp [b64chunks, hva, hvb, hpad] at h
  | case4 =>
    rename_i a b c va vb hvb hva hc vc hvc
    intro bs h x hx
    have hva2 := charVal_lt _ _ hva
    have hvb2 := charVal_lt _ _ hvb
    have hvc2 := charVal_lt _ _ hvc
    simp [b64chunks, hva, hvb, hvc, hc] at h
    subst h
    simp at hx
    rcases hx with rfl | rfl <;> omega
  | case5 =>
    rename_i a b c rest va vb hvb hva hc vc hvc hrest
    intro bs h x hx
    simp [b64chunks, hva, hvb, hvc, hc, hrest] at h
  | case6 =>
    rename_i a b c d rest va vb hvb hva hc vc hvc hd vd hvd tl htl ih
    intro bs h x hx
    have hva2 := charVal_lt _ _ hva
    have hvb2 := charVal_lt _ _ hvb
    have hvc2 := charVal_lt _ _ hvc
    have hvd2 := charVal_lt _ _ hvd
    simp [b64chunks, hva, hvb, hvc, hvd, hc, hd, htl] at h
    subst h
    simp at hx
    rcases hx with rfl | rfl | rfl | hx
    · omega
    · omega
    · omega
    · exact ih tl htl x hx
  | case7 =>
    rename_i a b c d rest va vb hvb hva hc vc hvc hd vd hvd hrec ih
    intro bs h x hx
    simp [b64chunks, hva, hvb, hvc, hvd, hc, hd, hrec] at h
  | case8 =>
    rename_i a b c d rest va vb hvb hva hc vc hvc hd hvd
    intro bs h x hx
    simp [b64chunks, hva, hvb, hvc, hc, hd, hvd] at h
  | case9 =>
    rename_i a b c d rest va vb hvb hva hc hvc
    intro bs h x hx
    simp [b64chunks, hva, hvb, hvc, hc] at h
  | case10 =>
    rename_i a b c d rest hfail
    intro bs h x hx
    rcases hva : charVal a with _ | va <;> rcases hvb : charVal b with _ | vb
    · simp [b64chunks, hva, hvb] at h
    · simp [b64chunks, hva, hvb] at h
    · simp [b64chunks, hva, hvb] at h
    · exact (hfail va vb hva hvb).elim
  | case11 =>
    rename_i t hnil h4
    intro bs h x hx
    rcases t with _ | ⟨a, _ | ⟨b, _ | ⟨c, _ | ⟨d, r⟩⟩⟩⟩
    · exact absurd rfl hnil
    · exact Option.noConfusion h
    · exact Option.noConfusion h
    · exact Option.noConfusion h
    · exact absurd rfl (h4 a b c d r)

/-- Encoded output survives the decoder's character filter. -/
lemma b64encodeChars_filter (bs : List Nat) :
    (b64encodeChars bs).filter (fun ch => isB64Char ch || decide (ch = '=')) = b64encodeChars bs := by
  induction bs using b64encodeChars.induct with
  | case1 => rfl
  | case2 a => simp [b64encodeChars, isB64Char_sextetChar]
  | case3 a b => simp [b64encodeChars, isB64Char_sextetChar]
  | case4 a b c rest ih => simp [b64encodeChars, isB64Char_sextetChar, ih]

/-- Decoding an encoded byte list recovers it. -/
lemma b64chunks_b64encodeChars (bs : List Nat) (hb : ∀ x ∈ bs, x < 256) :
    b64chunks (b64encodeChars bs) = some bs := by
  induction bs using b64encodeChars.induct with
  | case1 => rfl
  | case2 a =>
    have ha : a < 256 := hb a (by simp)
    have h1 := charVal_sextetChar (a / 4) (by omega)
    have h2 := charVal_sextetChar (a % 4 * 16) (by omega)
    simp [b64encodeChars, b64chunks, h1, h2]
    omega
  | case3 a b =>
    have ha : a < 256 := hb a (by simp)
    have hb2 : b < 256 := hb b (by simp)
    have h1 := charVal_sextetChar (a / 4) (by omega)
    have h2 := charVal_sextetChar (a % 4 * 16 + b / 16) (by omega)
    have h3 := charVal_sextetChar (b % 16 * 4) (by omega)
    have hne := sextetChar_ne_pad (b % 16 * 4) (by omega)
    simp [b64encodeChars, b64chunks, h1, h2, h3, hne]
    constructor <;> omega
  | case4 a b c rest ih =>
    have ha : a < 256 := hb a (by simp)
    have hb2 : b < 256 := hb b (by simp)
    have hc : c < 256 := hb c (by simp)
    have h1 := charVal_sextetChar (a / 4) (by omega)
    have h2 := charVal_sextetChar (a % 4 * 16 + b / 16) (by omega)
    have h3 := charVal_sextetChar (b % 16 * 4 + c / 64) (by omega)
    have h4 := charVal_sextetChar (c % 64) (by omega)
    have hne3 := sextetChar_ne_pad (b % 16 * 4 + c / 64) (by omega)
    have hne4 := sextetChar_ne_pad (c % 64) (by omega)
    have ihr := ih (fun x hx => hb x (by simp [hx]))
    simp [b64encodeChars, b64chunks, h1, h2, h3, h4, hne3, hne4, ihr]
    refine ⟨by omega, by omega, by omega⟩

/-- Python round trip: decoding the base64 encoding of a byte string
gives the byte string back. -/
lemma pyB64decode_b64encode (bs : List Nat) (hb : ∀ x ∈ bs, x < 256) :
    pyB64decode (b64encode bs) = some bs := by
  unfold pyB64decode b64encode
  rw [show (String.mk (b64encodeChars bs)).data = b64encodeChars bs from rfl,
    b64encodeChars_filter, b64chunks_b64encodeChars bs hb]

/-- Looking up a just-assigned key finds the assigned value. -/
lemma lookupA_setA {α : Type} (l : List (String × α)) (k : String) (v : α) :
    lookupA (setA l k v) k = some v := by
  induction l with
  | nil => simp [setA, lookupA]
  | cons p rest ih =>
    rcases p with ⟨k2, v2⟩
    by_cases hp : k2 = k
    · simp [setA, hp, lookupA]
    · simp [setA, lookupA, hp, ih]

/-- The guessed extension is never empty. -/
lemma guess_image_ext_ne (bs : List Nat) : guess_image_ext bs ≠ "" := by
  unfold guess_image_ext
  (repeat' split) <;> decide

/-- Whether an `Except` value is a success. -/
def exceptIsOk {ε α : Type} : Except ε α → Bool
  | Except.ok _ => true
  | Except.error _ => false

/-- The store state after a save (unchanged when the save failed). -/
def saveResultState (st : StoreState) (owner input : String) : StoreState :=
  match save_base_image st owner input with
  | Except.ok r => r.2
  | Except.error _ => st

/-- C7: for every store state, owner key and input whose payload (after
data-URI stripping) base64-decodes to a non-empty byte string, the save
succeeds and an immediate read for the same owner returns a base64
string that decodes to exactly the saved bytes. -/
theorem save_read_roundtrip (st : StoreState) (owner input : String) (bs : List Nat)
    (h1 : pyB64decode (strip_data_uri input) = some bs) (h2 : bs ≠ []) :
    exceptIsOk (save_base_image st owner input) = true
    ∧ read_base_image_base64 (saveResultState st owner input) owner = some (b64encode bs)
    ∧ pyB64decode (b64encode bs) = some bs := by
  have h1c : b64chunks ((strip_data_uri input).data.filter
      (fun ch => isB64Char ch || decide (ch = '='))) = some bs := h1
  have hbound := b64chunks_bytes_lt _ bs h1c
  have hext := guess_image_ext_ne bs
  have hfn : safe_id owner ++ guess_image_ext bs ≠ "" := append_ne_empty_right _ _ hext
  have hsave : save_base_image st owner input
      = Except.ok (safe_id owner ++ guess_image_ext bs,
          ⟨setA st.meta owner (safe_id owner ++ guess_image_ext bs),
           setA (match lookupA st.meta owner with
                 | some old_name =>
                   if ¬ old_name = safe_id owner ++ guess_image_ext bs
                   then removeA st.files old_name else st.files
                 | none => st.files) (safe_id owner ++ guess_image_ext bs) bs⟩) := by
    unfold save_base_image
    dsimp only
    rw [h1]
    dsimp only
    rw [if_neg h2]
  refine ⟨?_, ?_, pyB64decode_b64encode bs hbound⟩
  · rw [hsave]
    rfl
  · unfold saveResultState
    rw [hsave]
    simp only [read_base_image_base64, get_base_image_path, lookupA_setA, if_neg hfn]
    rfl

/-- Witness for C7: saving `"aGVsbG8="` (base64 of `hello`) for an owner
and reading it back round-trips. -/
theorem save_read_roundtrip_witness :
    exceptIsOk (save_base_image ⟨[], []⟩ "chat_1" "aGVsbG8=") = true
    ∧ read_base_image_base64 (saveResultState ⟨[], []⟩ "chat_1" "aGVsbG8=") "chat_1"
        = some (b64encode [104, 101, 108, 108, 111])
    ∧ pyB64decode (b64encode [104, 101, 108, 108, 111]) = some [104, 101, 108, 108, 111] :=
  save_read_roundtrip ⟨[], []⟩ "chat_1" "aGVsbG8=" [104, 101, 108, 108, 111]
    (by decide) (by decide)

/-- The pipeline tail sends exactly when `pipelineOk`, and updates the
state exactly on success. -/
lemma selfiePipeline_spec (env : ExecEnv) (s1 : ExecState) (rateOn : Bool) (wh : Int) :
    ((selfiePipeline env s1 rateOn wh).1 = ExecResult.sent ↔ pipelineOk env = true)
    ∧ (selfiePipeline env s1 rateOn wh).2
        = (if pipelineOk env = true
           then ⟨setA s1.lastTrigger env.ownerKey env.now,
                 if rateOn then (RateLimiter.record s1.rate wh env.now).2 else s1.rate⟩
           else s1) := by
  rcases hplan : generate_prompt_plan env.chatParse env.contextText env.style env.nsfw
    with e | plan
  · simp [selfiePipeline, pipelineOk, hplan]
  · rcases hgen : generate_with_reference env.imgApiBase env.imgModel plan.prompt
        plan.negative env.baseB64 env.imgSize env.imgResp1 env.imgResp2 with e | img
    · simp [selfiePipeline, pipelineOk, hplan, hgen]
    · rcases hsend : env.sendImage with e | b
      · simp [selfiePipeline, pipelineOk, hplan, hgen, hsend]
      · cases b <;> simp [selfiePipeline, pipelineOk, hplan, hgen, hsend]

/-- A successful chat outcome always yields a reply. -/
lemma generate_refusal_reply_ok (raw ctx reason : String) :
    ∃ t, generate_refusal_reply (Except.ok raw) ctx reason = Except.ok t := by
  unfold generate_refusal_reply
  by_cases h : pyStrip raw = "" <;> simp [h]

/-- C1: persisted success state changes only at the single done point:
the invocation result is `sent` exactly when the image send reported
success, in which case the final state is the done state (last-trigger
set, rate-limit event recorded when enabled); in every other case —
send returning failure, planning or generation raising, the refusal
path, or any earlier termination — the final state is exactly the state
the cooldown and rate-limit checks saw, whose last-trigger map is the
original one. -/
theorem success_state_update_iff (env : ExecEnv) (s : ExecState) :
    ((execute env s).1 = ExecResult.sent ↔ deliverySucceeds env s = true)
    ∧ (execute env s).2
        = (if deliverySucceeds env s = true then doneState env s else seenByChecks env s)
    ∧ (seenByChecks env s).lastTrigger = s.lastTrigger := by
  have hseen : (seenByChecks env s).lastTrigger = s.lastTrigger := by
    unfold seenByChecks
    split <;> rfl
  suffices hmain : ((execute env s).1 = ExecResult.sent ↔ deliverySucceeds env s = true)
      ∧ (execute env s).2
          = (if deliverySucceeds env s = true then doneState env s else seenByChecks env s)
    from ⟨hmain.1, hmain.2, hseen⟩
  unfold execute
  by_cases h1 : env.pluginEnabled = false
  · rw [if_pos h1]
    have hpass : passesPreChecks env s = false := by simp [passesPreChecks, h1]
    simp [deliverySucceeds, hpass, seenByChecks]
  · rw [if_neg h1]
    by_cases h2 : env.selfieEnabled = false
    · rw [if_pos h2]
      have hpass : passesPreChecks env s = false := by simp [passesPreChecks, h2]
      simp [deliverySucceeds, hpass, seenByChecks]
    · rw [if_neg h2]
      by_cases h3 : env.keywordHit = false
      · rw [if_pos h3]
        have hpass : passesPreChecks env s = false := by simp [passesPreChecks, h3]
        simp [deliverySucceeds, hpass, seenByChecks]
      · rw [if_neg h3]
        try dsimp only
        by_cases h4 : (0 < pyIntOr env.cooldownCfg 30
            ∧ env.now - getLastTrigger s.lastTrigger env.ownerKey
                < (pyIntOr env.cooldownCfg 30 : Rat))
        · rw [if_pos h4]
          have hpass : passesPreChecks env s = false := by simp [passesPreChecks, h4]
          simp [deliverySucceeds, hpass, seenByChecks]
        · rw [if_neg h4]
          by_cases h5 : env.hasBase = false
          · rw [if_pos h5]
            have hpass : passesPreChecks env s = false := by simp [passesPreChecks, h5]
            simp [deliverySucceeds, hpass, seenByChecks]
          · rw [if_neg h5]
            try dsimp only
            have h1b : env.pluginEnabled = true := by simpa using h1
            have h2b : env.selfieEnabled = true := by simpa using h2
            have h3b : env.keywordHit = true := by simpa using h3
            have h5b : env.hasBase = true := by simpa using h5
            have hpass : passesPreChecks env s = true := by
              simp [passesPreChecks, h1b, h2b, h3b, h4, h5b]
            by_cases h6 : env.rateLimitEnabled = true
            · rw [if_pos h6]
              try dsimp only
              by_cases h7 : (RateLimiter.check s.rate (pyIntOr env.windowHoursCfg 6)
                  (pyIntOr env.maxImagesCfg 3) env.now).1.1 = true
              · rw [if_pos h7]
                have hds : deliverySucceeds env s = false := by
                  simp [deliverySucceeds, limitedAtCheck, h6, h7]
                have hsc : seenByChecks env s
                    = ⟨s.lastTrigger, (RateLimiter.check s.rate (pyIntOr env.windowHoursCfg 6)
                        (pyIntOr env.maxImagesCfg 3) env.now).2⟩ := by
                  simp [seenByChecks, hpass, h6]
                rcases hrc : env.refusalChat with e | raw
                · simp [generate_refusal_reply, hrc, hds, hsc]
                · obtain ⟨t, ht⟩ := generate_refusal_reply_ok raw env.contextText
                    (toString (pyIntOr env.windowHoursCfg 6) ++ " 小时内已拍了太多张照片")
                  rcases hsr : env.sendRefusal with e2 | u
                  · simp [hrc, ht, hsr, hds, hsc]
                  · simp [hrc, ht, hsr, hds, hsc]
              · rw [if_neg h7]
                have h7f : limitedAtCheck env s = false := by
                  unfold limitedAtCheck
                  simpa using h7
                have hds : deliverySucceeds env s = pipelineOk env := by
                  simp [deliverySucceeds, hpass, h6, h7f]
                have hsc : seenByChecks env s
                    = ⟨s.lastTrigger, (RateLimiter.check s.rate (pyIntOr env.windowHoursCfg 6)
                        (pyIntOr env.maxImagesCfg 3) env.now).2⟩ := by
                  simp [seenByChecks, hpass, h6]
                have hdone : doneState env s
                    = ⟨setA s.lastTrigger env.ownerKey env.now,
                       (RateLimiter.record ((RateLimiter.check s.rate
                          (pyIntOr env.windowHoursCfg 6) (pyIntOr env.maxImagesCfg 3)
                          env.now).2) (pyIntOr env.windowHoursCfg 6) env.now).2⟩ := by
                  simp [doneState, seenByChecks, hpass, h6]
                have hsp := selfiePipeline_spec env
                  ⟨s.lastTrigger, (RateLimiter.check s.rate (pyIntOr env.windowHoursCfg 6)
                      (pyIntOr env.maxImagesCfg 3) env.now).2⟩ true
                  (pyIntOr env.windowHoursCfg 6)
                constructor
                · rw [hds]
                  exact hsp.1
                · rw [hds, hsc, hdone, hsp.2]
                  by_cases hpk : pipelineOk env = true <;> simp [hpk]
            · rw [if_neg h6]
              have h6f : env.rateLimitEnabled = false := by simpa using h6
              have hds : deliverySucceeds env s = pipelineOk env := by
                simp [deliverySucceeds, hpass, h6f]
              have hsc : seenByChecks env s = s := by simp [seenByChecks, h6f]
              have hdone : doneState env s
                  = ⟨setA s.lastTrigger env.ownerKey env.now, s.rate⟩ := by
                simp [doneState, seenByChecks, h6f]
              have hsp := selfiePipeline_spec env s false (pyIntOr env.windowHoursCfg 6)
              constructor
              · rw [hds]
                exact hsp.1
              · rw [hds, hsc, hdone, hsp.2]
                by_cases hpk : pipelineOk env = true <;> simp [hpk]
